import Mathlib

/-!
Shallow embedding of the `simple-proxy-id` request-forwarding pipeline and
attack-detection engine (source: `src/index.js`, `src/plugins/logger.js`,
`src/plugins/attack-detector.js`), together with theorems settling the
frozen claims about the natural-language specification.

Headers are modelled as ordered association lists (Node's `Object.entries`
iteration order); time is `Nat` milliseconds; fallible construction is
`Except`; the platform URL parser and the user-supplied `onTrigger`
callback are explicit function parameters.
-/

namespace SimpleProxy

/-- Ordered header mapping, as iterated by `Object.entries(headers)`. -/
abbrev Headers := List (String × String)

/-- ASCII lowercasing, modelling `key.toLowerCase()` on header names
(character-list implementation so terms reduce definitionally). -/
def lowerStr (s : String) : String := String.mk (s.toList.map Char.toLower)

/-- The `BLOCKED_HEADERS` list from src/index.js: the fixed denylist of hop-by-hop
headers never forwarded to the target. -/
def BLOCKED_HEADERS : List String :=
  ["connection", "keep-alive", "transfer-encoding", "upgrade",
   "proxy-connection", "proxy-authenticate", "proxy-authorization",
   "te", "trailer"]

/-- Whether a header entry survives the filter: its lowercased name is not
in the denylist (the negation of the `BLOCKED_HEADERS.includes` test). -/
def keepHeader (kv : String × String) : Bool :=
  !(BLOCKED_HEADERS.contains (lowerStr kv.1))

/-- The accumulator loop of `filterHeaders`: walk the entries in order,
appending each non-blocked entry to the fresh `filtered` object. -/
def filterHeadersLoop (acc : Headers) : Headers → Headers
  | [] => acc
  | kv :: rest =>
    if keepHeader kv then filterHeadersLoop (acc ++ [kv]) rest
    else filterHeadersLoop acc rest

/-- The `filterHeaders` function from src/index.js: builds a new mapping holding exactly
the entries whose lowercased key is outside `BLOCKED_HEADERS`. -/
def filterHeaders (headers : Headers) : Headers :=
  filterHeadersLoop [] headers

/-- Exact-key lookup in a header mapping (JS property access `obj[key]`). -/
def getHeaderVal (h : Headers) (k : String) : Option String :=
  (h.find? (fun kv => kv.1 == k)).map (fun kv => kv.2)

/-- JS property assignment `obj[key] = v`: update the first entry with that
exact key in place, else append the key at the end. -/
def setKey : Headers → String → String → Headers
  | [], k, v => [(k, v)]
  | kv :: rest, k, v =>
    if kv.1 == k then (kv.1, v) :: rest else kv :: setKey rest k v

/-- JS `delete obj[key]`: remove the entries carrying that exact key. -/
def deleteKey (h : Headers) (k : String) : Headers :=
  h.filter (fun kv => !(kv.1 == k))

/-- The cached `targetParsed` descriptor built at proxy construction. -/
structure TargetParsed where
  hostname : String
  port : Nat
  host : String
  isHttps : Bool
  deriving DecidableEq, Repr

/-- An inbound request as the pipeline sees it: `req.url`, `req.method`,
the (Node-lowercased) header object, and the transport peer addresses. -/
structure Req where
  url : String
  method : String
  headers : Headers
  socketAddr : Option String
  connAddr : Option String
  deriving DecidableEq, Repr

/-- The outbound request options object built by `forwardRequest`. -/
structure OutboundOptions where
  hostname : String
  port : Nat
  path : String
  method : String
  headers : Headers
  deriving DecidableEq, Repr

/-- The options-building prefix of `forwardRequest` (src/index.js lines
80-97): copy method and url verbatim, filter headers, then either set the
host header to the target's host (`changeOrigin`) or delete it. -/
def buildOutboundOptions (clientReq : Req) (targetParsed : TargetParsed)
    (changeOrigin : Bool) : OutboundOptions :=
  let baseHeaders := filterHeaders clientReq.headers
  { hostname := targetParsed.hostname
    port := targetParsed.port
    path := clientReq.url
    method := clientReq.method
    headers :=
      if changeOrigin then setKey baseHeaders "host" targetParsed.host
      else deleteKey baseHeaders "host" }

/-! ## Error responses and failure handlers -/

/-- The fixed 30-second outbound timeout passed to `proxyReq.setTimeout`. -/
def PROXY_TIMEOUT_MS : Nat := 30000

/-- The `ERROR_TIMEOUT` constant: the precomputed 504 body (`JSON.stringify` output). -/
def ERROR_TIMEOUT : String :=
  "\x7b\"error\":\"Gateway Timeout\",\"message\":\"Target server took too long to respond\"\x7d"

/-- The `ERROR_PROXY` constant: the precomputed 500 body (`JSON.stringify` output). -/
def ERROR_PROXY : String :=
  "\x7b\"error\":\"Proxy Error\",\"message\":\"An error occurred during proxy request\"\x7d"

/-- Observable state of the client response object. -/
structure ClientRes where
  headersSent : Bool
  status : Option Nat
  contentType : Option String
  body : Option String
  deriving DecidableEq, Repr

/-- The `setTimeout(30000, ...)` handler of `forwardRequest`: destroy the
outbound request, and when no headers were sent yet, answer 504 with the
precomputed Gateway Timeout body. Returns (outbound destroyed?, response). -/
def handleTimeout (res : ClientRes) : Bool × ClientRes :=
  (true,
    if res.headersSent then res
    else { headersSent := true, status := some 504,
           contentType := some "application/json", body := some ERROR_TIMEOUT })

/-- The `proxyReq.on('error', ...)` handler: when no headers were sent yet,
answer 500 with the precomputed Proxy Error body. -/
def handleProxyError (res : ClientRes) : ClientRes :=
  if res.headersSent then res
  else { headersSent := true, status := some 500,
         contentType := some "application/json", body := some ERROR_PROXY }

/-! ## Proxy construction (target validation and caching) -/

/-- The fields of a platform-parsed WHATWG `URL` read by `createProxy`;
`port = none` models the empty `url.port` string (absent or default). -/
structure URLRec where
  protocol : String
  hostname : String
  port : Option Nat
  host : String
  deriving DecidableEq, Repr

/-- Lines 172-179 of src/index.js: derive the cached target descriptor
from the parsed URL, defaulting the port to 443/80 by protocol. -/
def mkTargetParsed (u : URLRec) : TargetParsed :=
  let isHttps := u.protocol == "https:"
  { hostname := u.hostname
    port := u.port.getD (if isHttps then 443 else 80)
    host := u.host
    isHttps := isHttps }

/-- A constructed proxy instance: the descriptor derived once at
construction plus the fixed `changeOrigin` flag. -/
structure ProxyInstance where
  targetParsed : TargetParsed
  changeOrigin : Bool
  deriving DecidableEq, Repr

/-- The construction-time validation of `createProxy` (src/index.js lines
156-182), parameterised by the platform URL parser: a falsy (absent or
empty) target is rejected first, then an unparsable target; on success the
descriptor is derived once and stored in the instance. -/
def createProxy (parse : String → Option URLRec) (target : Option String)
    (changeOrigin : Bool) : Except String ProxyInstance :=
  match target with
  | none => .error "Target URL is required"
  | some t =>
    if t == "" then .error "Target URL is required"
    else
      match parse t with
      | none => .error "Target must be a valid URL"
      | some u => .ok { targetParsed := mkTargetParsed u, changeOrigin := changeOrigin }

/-- Per-request handling of a constructed instance: the server closure
forwards every request using the one cached descriptor. -/
def handleRequest (p : ProxyInstance) (req : Req) : OutboundOptions :=
  buildOutboundOptions req p.targetParsed p.changeOrigin

/-! ## Client IP resolution -/

/-- JS `a || b` on possibly-undefined strings: an absent or empty left
operand is falsy and yields the right operand. -/
def jsOr (a b : Option String) : Option String :=
  match a with
  | some s => if s == "" then b else some s
  | none => b

/-- Leading/trailing-whitespace removal on a character list (`trim()`). -/
def trimChars (l : List Char) : List Char :=
  ((l.dropWhile Char.isWhitespace).reverse.dropWhile Char.isWhitespace).reverse

/-- First entry of a comma-separated header value, trimmed
(`value.split(',')[0].trim()`): the characters before the first comma. -/
def firstForwarded (s : String) : String :=
  String.mk (trimChars (s.toList.takeWhile (fun c => !(c == ','))))

/-- The `getClientIP` function from src/plugins/logger.js: CF-Connecting-IP, else the
first X-Forwarded-For entry, else X-Real-IP, else the socket address,
else the literal "unknown". -/
def getClientIP (req : Req) : String :=
  match jsOr (getHeaderVal req.headers "cf-connecting-ip") none with
  | some s => s
  | none =>
    match jsOr (getHeaderVal req.headers "x-forwarded-for") none with
    | some s => firstForwarded s
    | none =>
      match jsOr (getHeaderVal req.headers "x-real-ip") none with
      | some s => s
      | none => (jsOr req.socketAddr (some "unknown")).getD "unknown"

/-- The attack detector's own IP resolution (src/plugins/attack-detector.js
lines 599-602): the trimmed first X-Forwarded-For entry, else X-Real-IP,
else `socket.remoteAddress`, else `connection.remoteAddress`; the result
can be absent (`undefined`) when none is present. -/
def detectorClientIP (req : Req) : Option String :=
  jsOr ((getHeaderVal req.headers "x-forwarded-for").map firstForwarded)
    (jsOr (getHeaderVal req.headers "x-real-ip")
      (jsOr req.socketAddr req.connAddr))

/-- The value `req.headers['user-agent'] || 'unknown'` used for the trigger event. -/
def userAgentOf (req : Req) : String :=
  (jsOr (getHeaderVal req.headers "user-agent") (some "unknown")).getD "unknown"

/-! ## Attack detector -/

/-- The `options.path` matcher: an exact string or a RegExp, the latter modelled as its
test predicate (the platform regex engine is external). -/
inductive PathMatcher where
  | exact (s : String)
  | pattern (testFn : String → Bool)

/-- The `matchPath` helper: RegExp test, or exact string equality. -/
def matchPath : PathMatcher → String → Bool
  | .exact t, p => p == t
  | .pattern f, p => f p

/-- The value `url.parse(req.url).pathname`: the request path with the query string
and fragment cut off. -/
def pathnameOf (u : String) : String :=
  String.mk (u.toList.takeWhile (fun c => !(c == '?') && !(c == '#')))

/-- The validated detector configuration (path matcher, watched status
code, threshold, window); `onTrigger` is passed separately. -/
structure DetectorConfig where
  pathM : PathMatcher
  statusCode : Nat
  threshold : Nat
  timeWindow : Nat

/-- The `hitTracker` Map: insertion-ordered entries keyed by resolved IP
(the key is `Option String` because the resolved IP can be undefined). -/
abbrev Tracker := List (Option String × List Nat)

/-- The read `hitTracker.get ip` (first entry with that key). -/
def mapGet : Tracker → Option String → Option (List Nat)
  | [], _ => none
  | e :: rest, k => if e.1 == k then some e.2 else mapGet rest k

/-- The write `hitTracker.set ip hits`: update the existing entry in place, else
append a new one (Map insertion order). -/
def mapSet : Tracker → Option String → List Nat → Tracker
  | [], k, v => [(k, v)]
  | e :: rest, k, v =>
    if e.1 == k then (e.1, v) :: rest else e :: mapSet rest k v

/-- The removal `hitTracker.delete ip`. -/
def mapDelete (m : Tracker) (k : Option String) : Tracker :=
  m.filter (fun e => !(e.1 == k))

/-- The `cleanOldHits` helper: keep the timestamps with `now - ts < timeWindow`. -/
def cleanOldHits (timeWindow : Nat) (timestamps : List Nat) (now : Nat) : List Nat :=
  timestamps.filter (fun ts => now - ts < timeWindow)

/-- The object passed to `onTrigger` on a threshold breach. -/
structure TriggerEvent where
  ip : Option String
  hits : Nat
  path : String
  timestamp : Nat
  userAgent : String
  deriving DecidableEq, Repr

/-- The `try/catch` around `onTrigger`: a thrown error is swallowed and
reported (its message), never propagated. -/
def caughtOf (r : Except String Unit) : Option String :=
  match r with
  | .ok _ => none
  | .error msg => some msg

/-- Everything observable about one detector evaluation: the tracker
afterwards, the event passed to `onTrigger` (if it fired), the error the
try/catch swallowed (if the callback threw), and whether the original
`res.end` ran. -/
structure StepResult where
  tracker : Tracker
  triggered : Option TriggerEvent
  caught : Option String
  endCalled : Bool
  nextCalled : Bool
  deriving DecidableEq, Repr

/-- One full pass of the detector middleware for a request whose response
ended with `status` at time `now` (src/plugins/attack-detector.js lines
590-664): non-matching paths pass straight through; on a watched status
the IP's window is purged, the hit appended, and on reaching the
threshold `onTrigger` runs inside try/catch and the IP's entry is
deleted; the original `end` always runs. -/
def detectorStep (cfg : DetectorConfig) (onTrigger : TriggerEvent → Except String Unit)
    (tracker : Tracker) (req : Req) (status : Nat) (now : Nat) : StepResult :=
  let requestPath := pathnameOf req.url
  if !(matchPath cfg.pathM requestPath) then
    { tracker := tracker, triggered := none, caught := none,
      endCalled := true, nextCalled := true }
  else
    let ip := detectorClientIP req
    if status == cfg.statusCode then
      let prev := (mapGet tracker ip).getD []
      let cleaned := cleanOldHits cfg.timeWindow prev now
      let hits := cleaned ++ [now]
      let tracker1 := mapSet tracker ip hits
      if cfg.threshold ≤ hits.length then
        let ev : TriggerEvent :=
          { ip := ip, hits := hits.length, path := requestPath,
            timestamp := now, userAgent := userAgentOf req }
        { tracker := mapDelete tracker1 ip, triggered := some ev,
          caught := caughtOf (onTrigger ev), endCalled := true, nextCalled := true }
      else
        { tracker := tracker1, triggered := none, caught := none,
          endCalled := true, nextCalled := true }
    else
      { tracker := tracker, triggered := none, caught := none,
        endCalled := true, nextCalled := true }

/-- Run the detector over a sequence of completed responses for the same
request shape and status, at the given times, collecting the trigger
events in order. -/
def runTimes (cfg : DetectorConfig) (onTrigger : TriggerEvent → Except String Unit)
    (req : Req) (status : Nat) :
    Tracker → List Nat → Tracker × List TriggerEvent
  | tracker, [] => (tracker, [])
  | tracker, now :: rest =>
    let r := detectorStep cfg onTrigger tracker req status now
    let rec2 := runTimes cfg onTrigger req status r.tracker rest
    (rec2.1, r.triggered.toList ++ rec2.2)

/-! ## Helper lemmas -/

theorem filterHeadersLoop_eq (l : Headers) :
    ∀ acc, filterHeadersLoop acc l = acc ++ l.filter keepHeader := by
  induction l with
  | nil => intro acc; simp [filterHeadersLoop]
  | cons kv rest ih =>
    intro acc
    by_cases h : keepHeader kv
    · simp [filterHeadersLoop, h, ih, List.filter_cons]
    · simp [filterHeadersLoop, h, ih, List.filter_cons]

theorem filterHeaders_eq_filter (h : Headers) :
    filterHeaders h = h.filter keepHeader := by
  simpa using filterHeadersLoop_eq h []

theorem getHeaderVal_setKey_self (h : Headers) (k v : String) :
    getHeaderVal (setKey h k v) k = some v := by
  induction h with
  | nil => simp [setKey, getHeaderVal, List.find?]
  | cons kv rest ih =>
    by_cases hk : kv.1 == k
    · simp [setKey, hk, getHeaderVal, List.find?]
    · simp only [setKey, hk, if_false, Bool.false_eq_true]
      simpa [getHeaderVal, List.find?, hk] using ih

theorem mapGet_mapSet_self (m : Tracker) (k : Option String) (v : List Nat) :
    mapGet (mapSet m k v) k = some v := by
  induction m with
  | nil => simp [mapSet, mapGet]
  | cons e rest ih =>
    by_cases hk : e.1 == k
    · simp [mapSet, hk, mapGet]
    · simp [mapSet, hk, mapGet, ih]

theorem mapGet_mapDelete_self (m : Tracker) (k : Option String) :
    mapGet (mapDelete m k) k = none := by
  induction m with
  | nil => simp [mapDelete, mapGet]
  | cons e rest ih =>
    by_cases hk : e.1 == k
    · simpa [mapDelete, List.filter_cons, hk] using ih
    · simpa [mapDelete, List.filter_cons, hk, mapGet] using ih

/-- Unfolding equation: matching path, watched status, below threshold. -/
theorem detectorStep_eq_store (cfg : DetectorConfig)
    (f : TriggerEvent → Except String Unit) (tracker : Tracker) (req : Req)
    (status now : Nat)
    (hm : matchPath cfg.pathM (pathnameOf req.url) = true)
    (hs : status = cfg.statusCode)
    (hth : ¬ cfg.threshold ≤
      (cleanOldHits cfg.timeWindow ((mapGet tracker (detectorClientIP req)).getD []) now
        ++ [now]).length) :
    detectorStep cfg f tracker req status now =
      { tracker := mapSet tracker (detectorClientIP req)
          (cleanOldHits cfg.timeWindow ((mapGet tracker (detectorClientIP req)).getD []) now
            ++ [now]),
        triggered := none, caught := none, endCalled := true, nextCalled := true } := by
  have hcond : (status == cfg.statusCode) = true := by simp [hs]
  simp only [List.length_append, List.length_singleton, List.length_cons, List.length_nil] at hth
  simp [detectorStep, hm, hcond, hth]

/-- Unfolding equation: matching path, watched status, threshold reached. -/
theorem detectorStep_eq_trigger (cfg : DetectorConfig)
    (f : TriggerEvent → Except String Unit) (tracker : Tracker) (req : Req)
    (status now : Nat)
    (hm : matchPath cfg.pathM (pathnameOf req.url) = true)
    (hs : status = cfg.statusCode)
    (hth : cfg.threshold ≤
      (cleanOldHits cfg.timeWindow ((mapGet tracker (detectorClientIP req)).getD []) now
        ++ [now]).length) :
    detectorStep cfg f tracker req status now =
      { tracker := mapDelete
          (mapSet tracker (detectorClientIP req)
            (cleanOldHits cfg.timeWindow ((mapGet tracker (detectorClientIP req)).getD []) now
              ++ [now]))
          (detectorClientIP req),
        triggered := some
          { ip := detectorClientIP req,
            hits := (cleanOldHits cfg.timeWindow
              ((mapGet tracker (detectorClientIP req)).getD []) now ++ [now]).length,
            path := pathnameOf req.url, timestamp := now, userAgent := userAgentOf req },
        caught := caughtOf (f
          { ip := detectorClientIP req,
            hits := (cleanOldHits cfg.timeWindow
              ((mapGet tracker (detectorClientIP req)).getD []) now ++ [now]).length,
            path := pathnameOf req.url, timestamp := now, userAgent := userAgentOf req }),
        endCalled := true, nextCalled := true } := by
  have hcond : (status == cfg.statusCode) = true := by simp [hs]
  simp only [List.length_append, List.length_singleton, List.length_cons, List.length_nil] at hth
  simp [detectorStep, hm, hcond, hth]

/-- Unfolding equation: the request path does not match, the middleware
passes straight through without wrapping the response. -/
theorem detectorStep_eq_pass (cfg : DetectorConfig)
    (f : TriggerEvent → Except String Unit) (tracker : Tracker) (req : Req)
    (status now : Nat)
    (hm : matchPath cfg.pathM (pathnameOf req.url) = false) :
    detectorStep cfg f tracker req status now =
      { tracker := tracker, triggered := none, caught := none,
        endCalled := true, nextCalled := true } := by
  simp [detectorStep, hm]

/-- Unfolding equation: matching path but a status code other than the
watched one; the wrapped `end` records nothing. -/
theorem detectorStep_eq_skip (cfg : DetectorConfig)
    (f : TriggerEvent → Except String Unit) (tracker : Tracker) (req : Req)
    (status now : Nat)
    (hm : matchPath cfg.pathM (pathnameOf req.url) = true)
    (hs : status ≠ cfg.statusCode) :
    detectorStep cfg f tracker req status now =
      { tracker := tracker, triggered := none, caught := none,
        endCalled := true, nextCalled := true } := by
  have hcond : (status == cfg.statusCode) = false := by simpa using hs
  simp [detectorStep, hm, hcond]

/-! ## Claim theorems -/

/-- C1: for every inbound request the outbound request built by
`forwardRequest` is addressed to the cached target descriptor's hostname
and port, and its method and path are the inbound method and URL verbatim,
whatever query parameters, headers or body the client supplied. -/
theorem forwardRequest_target_fixed (req : Req) (targetParsed : TargetParsed)
    (changeOrigin : Bool) :
    (buildOutboundOptions req targetParsed changeOrigin).hostname = targetParsed.hostname ∧
    (buildOutboundOptions req targetParsed changeOrigin).port = targetParsed.port ∧
    (buildOutboundOptions req targetParsed changeOrigin).method = req.method ∧
    (buildOutboundOptions req targetParsed changeOrigin).path = req.url :=
  ⟨rfl, rfl, rfl, rfl⟩

/-- C3: the 30000 ms timeout handler destroys the outbound request and,
when no response bytes were sent, answers 504 with exactly the precomputed
Gateway Timeout body; any other outbound error before bytes are sent
answers 500 with exactly the precomputed Proxy Error body; once headers
are sent neither handler writes anything. -/
theorem forwardRequest_error_responses (res : ClientRes) :
    PROXY_TIMEOUT_MS = 30000 ∧
    (handleTimeout res).1 = true ∧
    (res.headersSent = false →
      (handleTimeout res).2 =
        { headersSent := true, status := some 504,
          contentType := some "application/json", body := some ERROR_TIMEOUT } ∧
      handleProxyError res =
        { headersSent := true, status := some 500,
          contentType := some "application/json", body := some ERROR_PROXY }) ∧
    (res.headersSent = true →
      (handleTimeout res).2 = res ∧ handleProxyError res = res) ∧
    ERROR_TIMEOUT =
      "\x7b\"error\":\"Gateway Timeout\",\"message\":\"Target server took too long to respond\"\x7d" ∧
    ERROR_PROXY =
      "\x7b\"error\":\"Proxy Error\",\"message\":\"An error occurred during proxy request\"\x7d" := by
  cases h : res.headersSent <;>
    simp [handleTimeout, handleProxyError, h, PROXY_TIMEOUT_MS, ERROR_TIMEOUT, ERROR_PROXY]

/-- Witness for C3 at a concrete response state with no headers sent. -/
theorem forwardRequest_error_responses_witness :
    (handleTimeout ⟨false, none, none, none⟩).2.status = some 504 ∧
    (handleTimeout ⟨false, none, none, none⟩).2.body = some ERROR_TIMEOUT ∧
    (handleProxyError ⟨false, none, none, none⟩).status = some 500 ∧
    (handleProxyError ⟨false, none, none, none⟩).body = some ERROR_PROXY ∧
    (handleTimeout ⟨true, some 200, none, none⟩).2 = ⟨true, some 200, none, none⟩ := by
  have h := forwardRequest_error_responses ⟨false, none, none, none⟩
  have h2 := forwardRequest_error_responses ⟨true, some 200, none, none⟩
  obtain ⟨-, -, himp, -, -, -⟩ := h
  obtain ⟨-, -, -, himp2, -, -⟩ := h2
  obtain ⟨ht, he⟩ := himp rfl
  obtain ⟨ht2, -⟩ := himp2 rfl
  exact ⟨by rw [ht], by rw [ht], by rw [he], by rw [he], ht2⟩

/-- C4 (divergence): the logger's `getClientIP` honours `CF-Connecting-IP`
first, but the attack detector's own resolution (x-forwarded-for first,
no CF-Connecting-IP step, no "unknown" fallback) does not: the same
request resolves to two different IPs across the two components. -/
theorem clientIP_resolution_divergence :
    getClientIP
      { url := "/login", method := "POST",
        headers := [("cf-connecting-ip", "1.2.3.4"), ("x-forwarded-for", "5.6.7.8")],
        socketAddr := some "7.7.7.7", connAddr := some "7.7.7.7" } = "1.2.3.4" ∧
    detectorClientIP
      { url := "/login", method := "POST",
        headers := [("cf-connecting-ip", "1.2.3.4"), ("x-forwarded-for", "5.6.7.8")],
        socketAddr := some "7.7.7.7", connAddr := some "7.7.7.7" } = some "5.6.7.8" ∧
    ("1.2.3.4" : String) ≠ "5.6.7.8" ∧
    getClientIP
      { url := "/x", method := "GET",
        headers := [("x-forwarded-for", "9.9.9.9, 8.8.8.8")],
        socketAddr := none, connAddr := none } = "9.9.9.9" ∧
    detectorClientIP
      { url := "/x", method := "GET",
        headers := [("x-forwarded-for", "9.9.9.9, 8.8.8.8")],
        socketAddr := none, connAddr := none } = some "9.9.9.9" ∧
    detectorClientIP
      { url := "/x", method := "GET", headers := [],
        socketAddr := none, connAddr := none } = none := by
  decide

/-- C6: `filterHeaders` never lets a denylisted header name through in any
casing, and returns exactly the other entries with their original casing,
order and multiplicity (it is the pure filter of the input, so the input
mapping itself is untouched and the function is total). -/
theorem filterHeaders_denylist_and_preservation (h : Headers) :
    ((filterHeaders h).all
      (fun kv => !(BLOCKED_HEADERS.contains (lowerStr kv.1)))) = true ∧
    filterHeaders h = h.filter keepHeader := by
  refine ⟨?_, filterHeaders_eq_filter h⟩
  rw [filterHeaders_eq_filter]
  simp only [List.all_eq_true]
  intro kv hkv
  simpa [keepHeader] using List.of_mem_filter hkv

/-- C7: with `changeOrigin` the outbound host header is exactly the
target's host; without it, no host header (the inbound object's keys are
Node-lowercased) survives into the outbound headers. -/
theorem changeOrigin_host_header (req : Req) (targetParsed : TargetParsed) :
    getHeaderVal (buildOutboundOptions req targetParsed true).headers "host" =
      some targetParsed.host ∧
    (req.headers.all (fun kv => lowerStr kv.1 == kv.1) = true →
      ((buildOutboundOptions req targetParsed false).headers.all
        (fun kv => !(lowerStr kv.1 == "host"))) = true) := by
  constructor
  · simpa [buildOutboundOptions] using
      getHeaderVal_setKey_self (filterHeaders req.headers) "host" targetParsed.host
  · intro hlower
    simp only [List.all_eq_true] at hlower ⊢
    intro kv hkv
    simp only [buildOutboundOptions, if_neg (by simp : ¬ (false = true)),
      deleteKey] at hkv
    have hkv2 := List.mem_filter.mp hkv
    have hmem : kv ∈ filterHeaders req.headers := hkv2.1
    have hne : (kv.1 == "host") = false := by
      simpa using hkv2.2
    rw [filterHeaders_eq_filter] at hmem
    have hmem2 : kv ∈ req.headers := List.mem_of_mem_filter hmem
    have hl2 : lowerStr kv.1 = kv.1 := by simpa using hlower kv hmem2
    have hne2 : kv.1 ≠ "host" := by simpa using hne
    rw [hl2]
    simpa using hne2

/-- Witness for C7 at a concrete request carrying a client host header. -/
theorem changeOrigin_host_header_witness :
    getHeaderVal
      (buildOutboundOptions
        ⟨"/a", "GET", [("host", "client.example"), ("accept", "text/html")], none, none⟩
        ⟨"api.example.com", 443, "api.example.com", true⟩ true).headers "host" =
      some "api.example.com" ∧
    ((buildOutboundOptions
        ⟨"/a", "GET", [("host", "client.example"), ("accept", "text/html")], none, none⟩
        ⟨"api.example.com", 443, "api.example.com", true⟩ false).headers.all
      (fun kv => !(lowerStr kv.1 == "host"))) = true := by
  have h := changeOrigin_host_header
    ⟨"/a", "GET", [("host", "client.example"), ("accept", "text/html")], none, none⟩
    ⟨"api.example.com", 443, "api.example.com", true⟩
  exact ⟨h.1, h.2 (by decide)⟩

/-- C10: `createProxy` rejects an absent (or falsy) target with the
target-required error before anything else, rejects an unparsable target
with the invalid-URL error, and on success derives the descriptor
(hostname, URL port or the 443/80 protocol default, host, isHttps) once
at construction; every subsequent request is forwarded with that same
cached descriptor. -/
theorem createProxy_validation (parse : String → Option URLRec) (changeOrigin : Bool) :
    createProxy parse none changeOrigin = .error "Target URL is required" ∧
    createProxy parse (some "") changeOrigin = .error "Target URL is required" ∧
    (∀ t, t ≠ "" → parse t = none →
      createProxy parse (some t) changeOrigin = .error "Target must be a valid URL") ∧
    (∀ t u, t ≠ "" → parse t = some u →
      createProxy parse (some t) changeOrigin =
        .ok { targetParsed := mkTargetParsed u, changeOrigin := changeOrigin } ∧
      (∀ req, handleRequest { targetParsed := mkTargetParsed u, changeOrigin := changeOrigin } req =
        buildOutboundOptions req (mkTargetParsed u) changeOrigin)) ∧
    (∀ u, (u.port = none →
        (mkTargetParsed u).port = (if u.protocol == "https:" then 443 else 80)) ∧
      (∀ p, u.port = some p → (mkTargetParsed u).port = p) ∧
      (mkTargetParsed u).hostname = u.hostname ∧
      (mkTargetParsed u).host = u.host ∧
      (mkTargetParsed u).isHttps = (u.protocol == "https:")) := by
  refine ⟨rfl, rfl, ?_, ?_, ?_⟩
  · intro t ht hp
    simp [createProxy, ht, hp]
  · intro t u ht hp
    refine ⟨by simp [createProxy, ht, hp], fun req => rfl⟩
  · intro u
    refine ⟨fun hp => by simp [mkTargetParsed, hp], fun p hp => by simp [mkTargetParsed, hp],
      rfl, rfl, rfl⟩

/-- Witness for C10 with a concrete platform parser and target strings. -/
theorem createProxy_validation_witness :
    createProxy
      (fun s => if s == "http://example.com" then
        some ⟨"http:", "example.com", none, "example.com"⟩ else none)
      (some "not a url") false = .error "Target must be a valid URL" ∧
    createProxy
      (fun s => if s == "http://example.com" then
        some ⟨"http:", "example.com", none, "example.com"⟩ else none)
      (some "http://example.com") false =
      .ok { targetParsed := ⟨"example.com", 80, "example.com", false⟩, changeOrigin := false } ∧
    createProxy
      (fun s => if s == "http://example.com" then
        some ⟨"http:", "example.com", none, "example.com"⟩ else none)
      none false = .error "Target URL is required" := by
  have h := createProxy_validation
    (fun s => if s == "http://example.com" then
      some ⟨"http:", "example.com", none, "example.com"⟩ else none) false
  obtain ⟨hnone, -, hinv, hok, -⟩ := h
  refine ⟨hinv "not a url" (by decide) (by decide), ?_, hnone⟩
  have := (hok "http://example.com" ⟨"http:", "example.com", none, "example.com"⟩
    (by decide) (by decide)).1
  rw [this]
  rfl

/-- C9: a request whose path does not match the detector's configured
path (matched on the pathname only), or whose response status differs
from the watched code, leaves the whole tracker untouched, never fires
`onTrigger`, and is passed through (the continuation and the original
`end` both run). -/
theorem detector_non_matching_passthrough (cfg : DetectorConfig)
    (f : TriggerEvent → Except String Unit) (tracker : Tracker) (req : Req)
    (status now : Nat)
    (h : matchPath cfg.pathM (pathnameOf req.url) = false ∨ status ≠ cfg.statusCode) :
    (detectorStep cfg f tracker req status now).tracker = tracker ∧
    (detectorStep cfg f tracker req status now).triggered = none ∧
    (detectorStep cfg f tracker req status now).caught = none ∧
    (detectorStep cfg f tracker req status now).endCalled = true ∧
    (detectorStep cfg f tracker req status now).nextCalled = true := by
  rcases h with hm | hs
  · rw [detectorStep_eq_pass cfg f tracker req status now hm]
    exact ⟨rfl, rfl, rfl, rfl, rfl⟩
  · by_cases hm : matchPath cfg.pathM (pathnameOf req.url) = true
    · rw [detectorStep_eq_skip cfg f tracker req status now hm hs]
      exact ⟨rfl, rfl, rfl, rfl, rfl⟩
    · rw [detectorStep_eq_pass cfg f tracker req status now
        (by simpa using hm)]
      exact ⟨rfl, rfl, rfl, rfl, rfl⟩

/-- Witness for C9: a hit on `/other` with the watched status, and a hit
on the watched path with another status, both against a detector watching
`/admin` with status 403. -/
theorem detector_non_matching_passthrough_witness :
    (detectorStep ⟨.exact "/admin", 403, 2, 1000⟩ (fun _ => .ok ())
      [(some "1.1.1.1", [3])] ⟨"/other", "GET", [], some "1.1.1.1", none⟩ 403 5).tracker =
      [(some "1.1.1.1", [3])] ∧
    (detectorStep ⟨.exact "/admin", 403, 2, 1000⟩ (fun _ => .ok ())
      [(some "1.1.1.1", [3])] ⟨"/other", "GET", [], some "1.1.1.1", none⟩ 403 5).triggered =
      none ∧
    (detectorStep ⟨.exact "/admin", 403, 2, 1000⟩ (fun _ => .ok ())
      [(some "1.1.1.1", [3])] ⟨"/admin", "GET", [], some "1.1.1.1", none⟩ 200 5).tracker =
      [(some "1.1.1.1", [3])] ∧
    (detectorStep ⟨.exact "/admin", 403, 2, 1000⟩ (fun _ => .ok ())
      [(some "1.1.1.1", [3])] ⟨"/admin", "GET", [], some "1.1.1.1", none⟩ 200 5).triggered =
      none := by
  have h1 := detector_non_matching_passthrough ⟨.exact "/admin", 403, 2, 1000⟩
    (fun _ => .ok ()) [(some "1.1.1.1", [3])]
    ⟨"/other", "GET", [], some "1.1.1.1", none⟩ 403 5 (Or.inl (by decide))
  have h2 := detector_non_matching_passthrough ⟨.exact "/admin", 403, 2, 1000⟩
    (fun _ => .ok ()) [(some "1.1.1.1", [3])]
    ⟨"/admin", "GET", [], some "1.1.1.1", none⟩ 200 5 (Or.inr (by decide))
  exact ⟨h1.1, h1.2.1, h2.1, h2.2.1⟩

/-- C8: the detector's observable behaviour (tracker mutation, trigger
event, running of the original `end` and of the continuation) is the same
for every `onTrigger` callback — a throwing callback cannot change it —
and a thrown error is caught and reported as the logged message. -/
theorem onTrigger_error_contained (cfg : DetectorConfig)
    (f g : TriggerEvent → Except String Unit) (tracker : Tracker) (req : Req)
    (status now : Nat) :
    (detectorStep cfg f tracker req status now).tracker =
      (detectorStep cfg g tracker req status now).tracker ∧
    (detectorStep cfg f tracker req status now).triggered =
      (detectorStep cfg g tracker req status now).triggered ∧
    (detectorStep cfg f tracker req status now).endCalled = true ∧
    (detectorStep cfg f tracker req status now).nextCalled = true ∧
    (∀ ev msg, (detectorStep cfg f tracker req status now).triggered = some ev →
      f ev = .error msg →
      (detectorStep cfg f tracker req status now).caught = some msg) := by
  by_cases hm : matchPath cfg.pathM (pathnameOf req.url) = true
  · by_cases hs : status = cfg.statusCode
    · by_cases hth : cfg.threshold ≤
        (cleanOldHits cfg.timeWindow ((mapGet tracker (detectorClientIP req)).getD []) now
          ++ [now]).length
      · rw [detectorStep_eq_trigger cfg f tracker req status now hm hs hth,
          detectorStep_eq_trigger cfg g tracker req status now hm hs hth]
        refine ⟨rfl, rfl, rfl, rfl, ?_⟩
        intro ev msg hev hferr
        have hev2 := Option.some.inj hev
        rw [← hev2] at hferr
        show caughtOf (f _) = some msg
        rw [hferr]
        rfl
      · rw [detectorStep_eq_store cfg f tracker req status now hm hs hth,
          detectorStep_eq_store cfg g tracker req status now hm hs hth]
        refine ⟨rfl, rfl, rfl, rfl, ?_⟩
        intro ev msg hev
        exact absurd hev (by simp)
    · rw [detectorStep_eq_skip cfg f tracker req status now hm hs,
        detectorStep_eq_skip cfg g tracker req status now hm hs]
      refine ⟨rfl, rfl, rfl, rfl, ?_⟩
      intro ev msg hev
      exact absurd hev (by simp)
  · rw [detectorStep_eq_pass cfg f tracker req status now (by simpa using hm),
      detectorStep_eq_pass cfg g tracker req status now (by simpa using hm)]
    refine ⟨rfl, rfl, rfl, rfl, ?_⟩
    intro ev msg hev
    exact absurd hev (by simp)

/-- Witness for C8: a threshold-1 breach with a throwing callback reports
the thrown message, mutates state exactly like a quiet callback, and the
original `end` still runs. -/
theorem onTrigger_error_contained_witness :
    (detectorStep ⟨.exact "/login", 401, 1, 1000⟩ (fun _ => .error "boom")
      [] ⟨"/login", "POST", [], some "2.2.2.2", none⟩ 401 10).tracker =
      (detectorStep ⟨.exact "/login", 401, 1, 1000⟩ (fun _ => .ok ())
        [] ⟨"/login", "POST", [], some "2.2.2.2", none⟩ 401 10).tracker ∧
    (detectorStep ⟨.exact "/login", 401, 1, 1000⟩ (fun _ => .error "boom")
      [] ⟨"/login", "POST", [], some "2.2.2.2", none⟩ 401 10).endCalled = true ∧
    (detectorStep ⟨.exact "/login", 401, 1, 1000⟩ (fun _ => .error "boom")
      [] ⟨"/login", "POST", [], some "2.2.2.2", none⟩ 401 10).caught = some "boom" := by
  have h := onTrigger_error_contained ⟨.exact "/login", 401, 1, 1000⟩
    (fun _ => .error "boom") (fun _ => .ok ())
    [] ⟨"/login", "POST", [], some "2.2.2.2", none⟩ 401 10
  refine ⟨h.1, h.2.2.1, ?_⟩
  exact h.2.2.2.2
    ⟨some "2.2.2.2", 1, "/login", 10, "unknown"⟩ "boom" (by decide) rfl

/-- A run of matching hits whose recorded prefix plus remaining hits
total exactly the threshold, all inside one window, fires the trigger
exactly once, with the hit count equal to the threshold, and clears the
IP's tracker entry. -/
theorem runTimes_full_window_trigger (cfg : DetectorConfig)
    (f : TriggerEvent → Except String Unit) (req : Req) (status : Nat)
    (hm : matchPath cfg.pathM (pathnameOf req.url) = true)
    (hs : status = cfg.statusCode) :
    ∀ (ts : List Nat) (tracker : Tracker) (l : List Nat),
      (mapGet tracker (detectorClientIP req)).getD [] = l →
      l.length + ts.length = cfg.threshold →
      ts ≠ [] →
      (∀ x ∈ l, ∀ b ∈ ts, b - x < cfg.timeWindow) →
      (∀ a ∈ ts, ∀ b ∈ ts, b - a < cfg.timeWindow) →
      ∃ tracker2 ev,
        runTimes cfg f req status tracker ts = (tracker2, [ev]) ∧
        ev.hits = cfg.threshold ∧
        mapGet tracker2 (detectorClientIP req) = none := by
  intro ts
  induction ts with
  | nil =>
    intro tracker l _ _ hne _ _
    exact absurd rfl hne
  | cons now rest ih =>
    intro tracker l hl hlen _ hwl hwts
    have hclean : cleanOldHits cfg.timeWindow
        ((mapGet tracker (detectorClientIP req)).getD []) now = l := by
      rw [hl]
      apply List.filter_eq_self.mpr
      intro x hx
      simpa using hwl x hx now (by simp)
    cases rest with
    | nil =>
      simp only [List.length_cons, List.length_nil] at hlen
      have hth : cfg.threshold ≤
          (cleanOldHits cfg.timeWindow
            ((mapGet tracker (detectorClientIP req)).getD []) now ++ [now]).length := by
        rw [hclean]
        simp only [List.length_append, List.length_singleton, List.length_cons, List.length_nil]
        omega
      have hrun : runTimes cfg f req status tracker [now] =
          (mapDelete (mapSet tracker (detectorClientIP req) (l ++ [now]))
            (detectorClientIP req),
           [⟨detectorClientIP req, (l ++ [now]).length, pathnameOf req.url, now,
             userAgentOf req⟩]) := by
        simp only [runTimes]
        rw [detectorStep_eq_trigger cfg f tracker req status now hm hs hth, hclean]
        rfl
      refine ⟨_, _, hrun, ?_, mapGet_mapDelete_self _ _⟩
      simp only [List.length_append, List.length_singleton, List.length_cons, List.length_nil]
      omega
    | cons r0 rs =>
      simp only [List.length_cons] at hlen
      have hth : ¬ cfg.threshold ≤
          (cleanOldHits cfg.timeWindow
            ((mapGet tracker (detectorClientIP req)).getD []) now ++ [now]).length := by
        rw [hclean]
        simp only [List.length_append, List.length_singleton, List.length_cons, List.length_nil]
        omega
      have hstep := detectorStep_eq_store cfg f tracker req status now hm hs hth
      have hl2 : (mapGet (mapSet tracker (detectorClientIP req) (l ++ [now]))
          (detectorClientIP req)).getD [] = l ++ [now] := by
        rw [mapGet_mapSet_self]
        rfl
      have hlen2 : (l ++ [now]).length + (r0 :: rs).length = cfg.threshold := by
        simp only [List.length_append, List.length_singleton, List.length_cons, List.length_nil]
        omega
      have hne2 : r0 :: rs ≠ [] := by simp
      have hwl2 : ∀ x ∈ l ++ [now], ∀ b ∈ r0 :: rs, b - x < cfg.timeWindow := by
        intro x hx b hb
        rcases List.mem_append.mp hx with hx | hx
        · exact hwl x hx b (List.mem_cons_of_mem now hb)
        · have hxnow : x = now := by simpa using hx
          rw [hxnow]
          exact hwts now (by simp) b (List.mem_cons_of_mem now hb)
      have hwts2 : ∀ a ∈ r0 :: rs, ∀ b ∈ r0 :: rs, b - a < cfg.timeWindow := by
        intro a ha b hb
        exact hwts a (List.mem_cons_of_mem now ha) b (List.mem_cons_of_mem now hb)
      obtain ⟨tracker2, ev, hrun, hhits, hnone⟩ :=
        ih (mapSet tracker (detectorClientIP req) (l ++ [now])) (l ++ [now])
          hl2 hlen2 hne2 hwl2 hwts2
      refine ⟨tracker2, ev, ?_, hhits, hnone⟩
      rw [runTimes, hstep]
      simp only [Option.toList, List.nil_append]
      rw [hclean, hrun]

/-- C2: with threshold t > 0 and window w, the t-th matching hit from one
IP inside w fires `onTrigger` exactly once, with `hits` exactly t (never
more), and immediately clears that IP's recorded hits, so the next
matching hit starts a fresh count of 1 with no carry-over. -/
theorem attackDetector_threshold_trigger (cfg : DetectorConfig)
    (f : TriggerEvent → Except String Unit) (req : Req) (status : Nat)
    (ts : List Nat) (tracker : Tracker)
    (hm : matchPath cfg.pathM (pathnameOf req.url) = true)
    (hs : status = cfg.statusCode)
    (hpos : 0 < cfg.threshold)
    (hlen : ts.length = cfg.threshold)
    (hstart : mapGet tracker (detectorClientIP req) = none)
    (hwin : ∀ a ∈ ts, ∀ b ∈ ts, b - a < cfg.timeWindow) :
    ∃ tracker2 ev,
      runTimes cfg f req status tracker ts = (tracker2, [ev]) ∧
      ev.hits = cfg.threshold ∧
      mapGet tracker2 (detectorClientIP req) = none ∧
      ∀ now2,
        ((detectorStep cfg f tracker2 req status now2).triggered = none →
          mapGet (detectorStep cfg f tracker2 req status now2).tracker
            (detectorClientIP req) = some [now2]) ∧
        (∀ ev2, (detectorStep cfg f tracker2 req status now2).triggered = some ev2 →
          ev2.hits = 1) := by
  obtain ⟨tracker2, ev, hrun, hhits, hnone⟩ :=
    runTimes_full_window_trigger cfg f req status hm hs ts tracker []
      (by rw [hstart]; rfl)
      (by simpa using hlen)
      (by
        intro habs
        rw [habs] at hlen
        simp at hlen
        omega)
      (by simp)
      hwin
  refine ⟨tracker2, ev, hrun, hhits, hnone, ?_⟩
  intro now2
  have hclean0 : cleanOldHits cfg.timeWindow
      ((mapGet tracker2 (detectorClientIP req)).getD []) now2 = [] := by
    rw [hnone]
    rfl
  by_cases hth : cfg.threshold ≤
      (cleanOldHits cfg.timeWindow
        ((mapGet tracker2 (detectorClientIP req)).getD []) now2 ++ [now2]).length
  · rw [detectorStep_eq_trigger cfg f tracker2 req status now2 hm hs hth]
    constructor
    · intro habs
      exact absurd habs (by simp)
    · intro ev2 hev2
      have hev3 := Option.some.inj hev2
      rw [← hev3]
      show (cleanOldHits cfg.timeWindow
        ((mapGet tracker2 (detectorClientIP req)).getD []) now2 ++ [now2]).length = 1
      rw [hclean0]
      rfl
  · rw [detectorStep_eq_store cfg f tracker2 req status now2 hm hs hth]
    constructor
    · intro _
      show mapGet (mapSet tracker2 (detectorClientIP req) _) _ = _
      rw [hclean0, List.nil_append, mapGet_mapSet_self]
    · intro ev2 hev2
      exact absurd hev2 (by simp)

/-- Witness for C2: three 401 hits on /login from one IP at 0, 100 and
200 ms against a threshold-3, 1000 ms detector. -/
theorem attackDetector_threshold_trigger_witness :
    ∃ tracker2 ev,
      runTimes ⟨.exact "/login", 401, 3, 1000⟩ (fun _ => .ok ())
        ⟨"/login", "POST", [("x-forwarded-for", "1.1.1.1")], none, none⟩ 401
        [] [0, 100, 200] = (tracker2, [ev]) ∧
      ev.hits = 3 ∧
      mapGet tracker2 (detectorClientIP
        ⟨"/login", "POST", [("x-forwarded-for", "1.1.1.1")], none, none⟩) = none ∧
      ∀ now2,
        ((detectorStep ⟨.exact "/login", 401, 3, 1000⟩ (fun _ => .ok ()) tracker2
            ⟨"/login", "POST", [("x-forwarded-for", "1.1.1.1")], none, none⟩ 401
            now2).triggered = none →
          mapGet (detectorStep ⟨.exact "/login", 401, 3, 1000⟩ (fun _ => .ok ()) tracker2
            ⟨"/login", "POST", [("x-forwarded-for", "1.1.1.1")], none, none⟩ 401
            now2).tracker
            (detectorClientIP
              ⟨"/login", "POST", [("x-forwarded-for", "1.1.1.1")], none, none⟩) =
            some [now2]) ∧
        (∀ ev2, (detectorStep ⟨.exact "/login", 401, 3, 1000⟩ (fun _ => .ok ()) tracker2
            ⟨"/login", "POST", [("x-forwarded-for", "1.1.1.1")], none, none⟩ 401
            now2).triggered = some ev2 → ev2.hits = 1) :=
  attackDetector_threshold_trigger ⟨.exact "/login", 401, 3, 1000⟩ (fun _ => .ok ())
    ⟨"/login", "POST", [("x-forwarded-for", "1.1.1.1")], none, none⟩ 401
    [0, 100, 200] []
    (by decide) rfl (by decide) rfl rfl (by decide)


/-- C5: after a detector evaluation that reads an IP's hit window, that
IP's stored timestamps all lie inside the window (`now - ts < timeWindow`,
so nothing older than `now - timeWindowMs` survives); consequently with
threshold 3 and a 1000 ms window, three matching hits whose first is at
least 1000 ms before the third (so it is purged first) never trigger. -/
theorem hitWindow_purge_invariant :
    (∀ (cfg : DetectorConfig) (f : TriggerEvent → Except String Unit)
      (tracker : Tracker) (req : Req) (status now : Nat) (l : List Nat),
      0 < cfg.timeWindow →
      matchPath cfg.pathM (pathnameOf req.url) = true →
      status = cfg.statusCode →
      mapGet (detectorStep cfg f tracker req status now).tracker
        (detectorClientIP req) = some l →
      ∀ x ∈ l, now - x < cfg.timeWindow) ∧
    (∀ (cfg : DetectorConfig) (f : TriggerEvent → Except String Unit)
      (req : Req) (status t1 t2 t3 : Nat),
      matchPath cfg.pathM (pathnameOf req.url) = true →
      status = cfg.statusCode →
      cfg.threshold = 3 →
      cfg.timeWindow = 1000 →
      1000 ≤ t3 - t1 →
      (runTimes cfg f req status [] [t1, t2, t3]).2 = []) := by
  constructor
  · intro cfg f tracker req status now l hw0 hm hs hget x hx
    by_cases hth : cfg.threshold ≤
        (cleanOldHits cfg.timeWindow
          ((mapGet tracker (detectorClientIP req)).getD []) now ++ [now]).length
    · rw [detectorStep_eq_trigger cfg f tracker req status now hm hs hth] at hget
      simp [mapGet_mapDelete_self] at hget
    · rw [detectorStep_eq_store cfg f tracker req status now hm hs hth] at hget
      simp only [mapGet_mapSet_self, Option.some.injEq] at hget
      rw [← hget] at hx
      rcases List.mem_append.mp hx with hc | hc
      · have hdec := List.of_mem_filter hc
        exact of_decide_eq_true hdec
      · have hxnow : x = now := by simpa using hc
        rw [hxnow]
        simpa using hw0
  · intro cfg f req status t1 t2 t3 hm hs hthr hwin hsp
    have hnot31 : ¬ (t3 - t1 < 1000) := by omega
    have h1 : detectorStep cfg f [] req status t1 =
        { tracker := [(detectorClientIP req, [t1])], triggered := none,
          caught := none, endCalled := true, nextCalled := true } :=
      detectorStep_eq_store cfg f [] req status t1 hm hs
        (by simp [cleanOldHits, mapGet, hthr])
    have hget2 : mapGet [(detectorClientIP req, [t1])] (detectorClientIP req) =
        some [t1] := by
      simp [mapGet]
    rcases Nat.lt_or_ge (t2 - t1) 1000 with hc12 | hc12
    · have hclean2 : cleanOldHits cfg.timeWindow
          ((mapGet [(detectorClientIP req, [t1])] (detectorClientIP req)).getD [])
          t2 = [t1] := by
        rw [hget2]
        simp [cleanOldHits, hwin, hc12]
      have h2 : detectorStep cfg f [(detectorClientIP req, [t1])] req status t2 =
          { tracker := [(detectorClientIP req, [t1, t2])], triggered := none,
            caught := none, endCalled := true, nextCalled := true } := by
        rw [detectorStep_eq_store cfg f [(detectorClientIP req, [t1])] req status t2
          hm hs (by rw [hclean2]; simp [hthr]), hclean2]
        simp [mapSet]
      have hget3 : mapGet [(detectorClientIP req, [t1, t2])] (detectorClientIP req) =
          some [t1, t2] := by
        simp [mapGet]
      rcases Nat.lt_or_ge (t3 - t2) 1000 with hc23 | hc23
      · have hclean3 : cleanOldHits cfg.timeWindow
            ((mapGet [(detectorClientIP req, [t1, t2])] (detectorClientIP req)).getD [])
            t3 = [t2] := by
          rw [hget3]
          simp [cleanOldHits, hwin, hnot31, hc23]
        have h3 : detectorStep cfg f [(detectorClientIP req, [t1, t2])] req status t3 =
            { tracker := [(detectorClientIP req, [t2, t3])], triggered := none,
              caught := none, endCalled := true, nextCalled := true } := by
          rw [detectorStep_eq_store cfg f [(detectorClientIP req, [t1, t2])] req status
            t3 hm hs (by rw [hclean3]; simp [hthr]), hclean3]
          simp [mapSet]
        simp [runTimes, h1, h2, h3]
      · have hnot23 : ¬ (t3 - t2 < 1000) := by omega
        have hclean3 : cleanOldHits cfg.timeWindow
            ((mapGet [(detectorClientIP req, [t1, t2])] (detectorClientIP req)).getD [])
            t3 = [] := by
          rw [hget3]
          simp [cleanOldHits, hwin, hnot31, hnot23]
        have h3 : detectorStep cfg f [(detectorClientIP req, [t1, t2])] req status t3 =
            { tracker := [(detectorClientIP req, [t3])], triggered := none,
              caught := none, endCalled := true, nextCalled := true } := by
          rw [detectorStep_eq_store cfg f [(detectorClientIP req, [t1, t2])] req status
            t3 hm hs (by rw [hclean3]; simp [hthr]), hclean3]
          simp [mapSet]
        simp [runTimes, h1, h2, h3]
    · have hnot12 : ¬ (t2 - t1 < 1000) := by omega
      have hclean2 : cleanOldHits cfg.timeWindow
          ((mapGet [(detectorClientIP req, [t1])] (detectorClientIP req)).getD [])
          t2 = [] := by
        rw [hget2]
        simp [cleanOldHits, hwin, hnot12]
      have h2 : detectorStep cfg f [(detectorClientIP req, [t1])] req status t2 =
          { tracker := [(detectorClientIP req, [t2])], triggered := none,
            caught := none, endCalled := true, nextCalled := true } := by
        rw [detectorStep_eq_store cfg f [(detectorClientIP req, [t1])] req status t2
          hm hs (by rw [hclean2]; simp [hthr]), hclean2]
        simp [mapSet]
      have hget3 : mapGet [(detectorClientIP req, [t2])] (detectorClientIP req) =
          some [t2] := by
        simp [mapGet]
      rcases Nat.lt_or_ge (t3 - t2) 1000 with hc23 | hc23
      · have hclean3 : cleanOldHits cfg.timeWindow
            ((mapGet [(detectorClientIP req, [t2])] (detectorClientIP req)).getD [])
            t3 = [t2] := by
          rw [hget3]
          simp [cleanOldHits, hwin, hc23]
        have h3 : detectorStep cfg f [(detectorClientIP req, [t2])] req status t3 =
            { tracker := [(detectorClientIP req, [t2, t3])], triggered := none,
              caught := none, endCalled := true, nextCalled := true } := by
          rw [detectorStep_eq_store cfg f [(detectorClientIP req, [t2])] req status t3
            hm hs (by rw [hclean3]; simp [hthr]), hclean3]
          simp [mapSet]
        simp [runTimes, h1, h2, h3]
      · have hnot23 : ¬ (t3 - t2 < 1000) := by omega
        have hclean3 : cleanOldHits cfg.timeWindow
            ((mapGet [(detectorClientIP req, [t2])] (detectorClientIP req)).getD [])
            t3 = [] := by
          rw [hget3]
          simp [cleanOldHits, hwin, hnot23]
        have h3 : detectorStep cfg f [(detectorClientIP req, [t2])] req status t3 =
            { tracker := [(detectorClientIP req, [t3])], triggered := none,
              caught := none, endCalled := true, nextCalled := true } := by
          rw [detectorStep_eq_store cfg f [(detectorClientIP req, [t2])] req status t3
            hm hs (by rw [hclean3]; simp [hthr]), hclean3]
          simp [mapSet]
        simp [runTimes, h1, h2, h3]

/-- Witness for C5: a stored hit window after a concrete evaluation stays
inside the window, and hits at 0, 750 and 1500 ms never trigger a
threshold-3, 1000 ms detector. -/
theorem hitWindow_purge_invariant_witness :
    (∀ x ∈ [(5 : Nat)], (5 : Nat) - x < 1000) ∧
    (runTimes ⟨.exact "/p", 404, 3, 1000⟩ (fun _ => .ok ())
      ⟨"/p", "GET", [("x-forwarded-for", "1.1.1.1")], none, none⟩ 404
      [] [0, 750, 1500]).2 = [] := by
  constructor
  · exact hitWindow_purge_invariant.1 ⟨.exact "/p", 404, 3, 1000⟩ (fun _ => .ok ())
      [] ⟨"/p", "GET", [("x-forwarded-for", "1.1.1.1")], none, none⟩ 404 5 [5]
      (by decide) (by decide) rfl (by decide)
  · exact hitWindow_purge_invariant.2 ⟨.exact "/p", 404, 3, 1000⟩ (fun _ => .ok ())
      ⟨"/p", "GET", [("x-forwarded-for", "1.1.1.1")], none, none⟩ 404 0 750 1500
      (by decide) rfl rfl rfl (by decide)

end SimpleProxy
